import Mathlib

/-!
# Verification of the invoice-agent workflow core

Shallow embedding, in Lean 4, of the parts of the repository that the
specification's claims talk about:

* `compute_match_score` — the two-way match scoring ability
  (`src/mcp/abilities.py`, `CommonAbilities.compute_match_score`);
* the branch predicates `should_checkpoint` and `should_continue_after_hitl`
  (`src/graph/workflow.py`);
* the checkpoint / resume protocol: `checkpoint_hitl_node`
  (`src/nodes/checkpoint.py`), `hitl_decision_node`
  (`src/nodes/hitl_decision.py`), `complete_node` (`src/nodes/complete.py`)
  and `InvoiceProcessingGraph.resume_workflow` / `start_workflow`
  (`src/graph/workflow.py`);
* a model, written from the specification's words, of the executor loop and
  of the state-merge discipline, which in the repository live inside the
  external graph library rather than in the repository's own sources.

Python floats are modelled as rationals (`ℚ`), ISO timestamps as natural
numbers supplied by the caller, and freshly generated UUID-based identifiers
as explicit string parameters.  Dictionaries that the claims never inspect
(vendor profile, flags, match evidence, …) are carried as opaque association
lists.
-/

namespace InvoiceAgent

/-! ## Two-way match scoring (`src/mcp/abilities.py`, lines 92–144) -/

/-- One invoice line item, as carried in the `line_items` list of a payload.
Only the presence of line items matters to the scoring code. -/
structure LineItem where
  desc : String
  qty : ℚ
  unit_price : ℚ
  total : ℚ
deriving DecidableEq, Repr

/-- One purchase-order candidate, as consumed by `compute_match_score`:
`po.get("po_number")` and `po.get("amount", 0)`. -/
structure PO where
  po_number : String
  amount : ℚ
deriving DecidableEq, Repr

/-- The `invoice` argument of `compute_match_score`:
`invoice.get("amount", 0)` and `invoice.get("line_items")`. -/
structure MatchInvoice where
  amount : ℚ
  line_items : List LineItem
deriving DecidableEq, Repr

/-- The result dictionary of `compute_match_score` (the `match_evidence`
sub-dictionary is flattened into the last four fields). -/
structure MatchOutcome where
  match_score : ℚ
  match_result : String
  tolerance_pct : ℚ
  best_po : Option String
  invoice_amount : ℚ
  po_amount : Option ℚ
  threshold_used : ℚ
deriving DecidableEq, Repr

/-- Python's `round(x, 3)`, modelled as rounding to the nearest thousandth.
(CPython rounds half-to-even; the two renderings differ only at exact
half-thousandths, which no claim touches.) -/
def round3 (x : ℚ) : ℚ := (round (x * 1000) : ℤ) / 1000

/-- Score of a single candidate inside the `for po in pos` loop:
`diff_pct = abs(invoice_amount - po_amount) / po_amount * 100`,
`amount_score = max(0, 1 - (diff_pct / 100))`,
`line_score = 0.8 if invoice.get("line_items") else 0.5`,
`score = (amount_score * 0.6) + (line_score * 0.4)`. -/
def candScore (invoiceAmount : ℚ) (hasLineItems : Bool) (poAmount : ℚ) : ℚ :=
  let diff_pct := |invoiceAmount - poAmount| / poAmount * 100
  let amount_score := max 0 (1 - diff_pct / 100)
  let line_score : ℚ := if hasLineItems then 8/10 else 5/10
  amount_score * (6/10) + line_score * (4/10)

/-- One iteration of the candidate loop: candidates with `amount == 0` are
skipped (`continue`) before the division; otherwise the best score and best
match are updated when the new score is strictly greater. -/
def matchFold (invoiceAmount : ℚ) (hasLineItems : Bool)
    (acc : ℚ × Option PO) (po : PO) : ℚ × Option PO :=
  if po.amount = 0 then acc
  else
    let score := candScore invoiceAmount hasLineItems po.amount
    if score > acc.1 then (score, some po) else acc

/-- The best score and best match produced by the loop, starting from
`best_score = 0.0`, `best_match = None`. -/
def bestOf (invoiceAmount : ℚ) (hasLineItems : Bool) (pos : List PO) :
    ℚ × Option PO :=
  pos.foldl (matchFold invoiceAmount hasLineItems) (0, none)

/-- `CommonAbilities.compute_match_score` (src/mcp/abilities.py:92-144).
If the candidate list is empty it returns score `0.0` and result `FAILED`;
otherwise it folds the loop above over the candidates and declares
`MATCHED` iff the (unrounded) best score reaches the threshold; the
reported `match_score` is `round(best_score, 3)`. -/
def compute_match_score (invoice : MatchInvoice) (pos : List PO)
    (threshold : ℚ) (tolerance_pct : ℚ) : MatchOutcome :=
  if pos = [] then
    { match_score := 0
      match_result := "FAILED"
      tolerance_pct := tolerance_pct
      best_po := none
      invoice_amount := invoice.amount
      po_amount := none
      threshold_used := threshold }
  else
    let hasLineItems := !invoice.line_items.isEmpty
    let best := bestOf invoice.amount hasLineItems pos
    { match_score := round3 best.1
      match_result := if best.1 ≥ threshold then "MATCHED" else "FAILED"
      tolerance_pct := tolerance_pct
      best_po := best.2.map PO.po_number
      invoice_amount := invoice.amount
      po_amount := best.2.map PO.amount
      threshold_used := threshold }

/-! ## Workflow state (`src/models/state.py`)

`InvoiceState` is a `TypedDict` with `total=False`: every key may be absent.
Fields the embedded stages read with `.get(key)` / `.get(key, default)` are
modelled as `Option`s whose `none` stands for an absent key; dictionary
sub-objects whose contents the embedded code never inspects are carried as
opaque association lists.  ISO timestamps are modelled as naturals supplied
by the caller, UUID-derived fresh identifiers as explicit string
parameters, and backend names chosen by the external tool selector as
explicit string parameters (the selector is an external collaborator). -/

/-- An opaque string-keyed dictionary. -/
abbrev Dict := List (String × String)

/-- Python dictionary assignment `m[k] = v`: replace the binding in place if
the key exists, else append it. -/
def setKey : Dict → String × String → Dict
  | [], kv => [kv]
  | (k, v) :: rest, kv =>
    if k = kv.1 then (k, kv.2) :: rest else (k, v) :: setKey rest kv

/-- The original invoice payload, with the keys the embedded code reads. -/
structure InvoicePayload where
  invoice_id : String := ""
  vendor_name : String := ""
  vendor_tax_id : String := ""
  amount : ℚ := 0
  currency : String := "USD"
  po_number : Option String := none
  due_date : Option String := none
  line_items : List LineItem := []
deriving DecidableEq, Repr

/-- A vendor profile; the embedded stages only read `normalized_name`
(`vendor_profile.get("normalized_name", ...)` in `reconcile_node`); the
remaining keys are carried opaquely. -/
structure VendorProfile where
  normalized_name : Option String := none
  extra : Dict := []
deriving DecidableEq, Repr

/-- A normalized invoice; the embedded stages read
`.get("amount", ...)`, `.get("line_items", ...)` and `.get("currency", ...)`;
the remaining keys are carried opaquely. -/
structure NormalizedInvoice where
  amount : Option ℚ := none
  line_items : Option (List LineItem) := none
  currency : Option String := none
  extra : Dict := []
deriving DecidableEq, Repr

/-- An entry of the state's error list:
`{stage, error, timestamp}` (`src/nodes/hitl_decision.py`, lines 45-49). -/
structure ErrRec where
  stage : String
  error : String
  timestamp : Nat
deriving DecidableEq, Repr

/-- One accounting entry, as built by `build_accounting_entries`
(`src/mcp/abilities.py`, lines 160-190). -/
structure AccEntry where
  entry_id : String
  account_code : String
  account_name : String
  debit : ℚ
  credit : ℚ
deriving DecidableEq, Repr

/-- The `final_payload` built by `complete_node`
(`src/nodes/complete.py`, lines 56-73). -/
structure FinalPayload where
  workflow_id : String
  invoice_id : String
  vendor_name : String
  amount : ℚ
  currency : String
  status : String
  match_score : Option ℚ
  match_result : Option String
  approval_status : Option String
  posted : Bool
  erp_txn_id : Option String
  scheduled_payment_id : Option String
  accounting_entries_count : Nat
  notified_parties : List String
  bigtool_selections : Dict
  completed_at : Nat
deriving DecidableEq, Repr

/-- `InvoiceState` (`src/models/state.py`, lines 18-97).  Fields that no
embedded stage reads or writes (`raw_id`, `ingest_ts`, `validated`,
`parsed_invoice`, `ocr_tool_used`, `enrichment_tool_used`, `matched_grns`,
`history`, `erp_tool_used`, `notify_status`, `reconciliation_report`,
`audit_log`) are omitted; no claim inspects them. -/
structure InvState where
  workflow_id : String := ""
  workflow_status : Option String := none
  current_stage : Option String := none
  started_at : Option Nat := none
  updated_at : Option Nat := none
  invoice_payload : InvoicePayload := {}
  vendor_profile : VendorProfile := {}
  normalized_invoice : NormalizedInvoice := {}
  flags : Dict := []
  matched_pos : List PO := []
  match_score : Option ℚ := none
  match_result : Option String := none
  tolerance_pct : Option ℚ := none
  match_evidence : Dict := []
  hitl_checkpoint_id : Option String := none
  review_url : Option String := none
  paused_reason : Option String := none
  db_tool_used : Option String := none
  human_decision : Option String := none
  reviewer_id : Option String := none
  resume_token : Option String := none
  next_stage : Option String := none
  accounting_entries : List AccEntry := []
  approval_status : Option String := none
  approver_id : Option String := none
  posted : Option Bool := none
  erp_txn_id : Option String := none
  scheduled_payment_id : Option String := none
  notified_parties : List String := []
  email_tool_used : Option String := none
  bigtool_selections : Dict := []
  errors : List ErrRec := []
  final_payload : Option FinalPayload := none
deriving DecidableEq, Repr

/-- The partial-update dictionary returned by a stage: `some v` means the
key is present in the returned dictionary with value `v`.  `resume_token`
is doubly optional because `hitl_decision_node` explicitly returns the key
with value `None` in the non-accept branch. -/
structure NodeUpdate where
  workflow_status : Option String := none
  current_stage : Option String := none
  updated_at : Option Nat := none
  hitl_checkpoint_id : Option String := none
  review_url : Option String := none
  paused_reason : Option String := none
  db_tool_used : Option String := none
  human_decision : Option String := none
  reviewer_id : Option String := none
  resume_token : Option (Option String) := none
  next_stage : Option String := none
  accounting_entries : Option (List AccEntry) := none
  approval_status : Option String := none
  approver_id : Option String := none
  posted : Option Bool := none
  erp_txn_id : Option String := none
  scheduled_payment_id : Option String := none
  notified_parties : Option (List String) := none
  email_tool_used : Option String := none
  bigtool_selections : Option Dict := none
  errors : Option (List ErrRec) := none
  final_payload : Option FinalPayload := none
deriving Repr

/-- Overwrite an optional field when the update carries the key. -/
def upd {α : Type} (old : Option α) (new : Option α) : Option α :=
  match new with
  | some v => some v
  | none => old

/-- The graph library's channel update for a `TypedDict` state without
reducer annotations: every key present in the returned dictionary
overwrites the stored value (nodes that extend a list, such as
`hitl_decision_node`'s error append, return the already-extended list
themselves).  The richer merge discipline that the design document
prescribes for a reimplemented Executor is modelled separately below as
`mergeUpdate`. -/
def applyUpdate (s : InvState) (u : NodeUpdate) : InvState :=
  { s with
    workflow_status := upd s.workflow_status u.workflow_status
    current_stage := upd s.current_stage u.current_stage
    updated_at := upd s.updated_at u.updated_at
    hitl_checkpoint_id := upd s.hitl_checkpoint_id u.hitl_checkpoint_id
    review_url := upd s.review_url u.review_url
    paused_reason := upd s.paused_reason u.paused_reason
    db_tool_used := upd s.db_tool_used u.db_tool_used
    human_decision := upd s.human_decision u.human_decision
    reviewer_id := upd s.reviewer_id u.reviewer_id
    resume_token := u.resume_token.getD s.resume_token
    next_stage := upd s.next_stage u.next_stage
    accounting_entries := u.accounting_entries.getD s.accounting_entries
    approval_status := upd s.approval_status u.approval_status
    approver_id := upd s.approver_id u.approver_id
    posted := upd s.posted u.posted
    erp_txn_id := upd s.erp_txn_id u.erp_txn_id
    scheduled_payment_id := upd s.scheduled_payment_id u.scheduled_payment_id
    notified_parties := u.notified_parties.getD s.notified_parties
    email_tool_used := upd s.email_tool_used u.email_tool_used
    bigtool_selections := u.bigtool_selections.getD s.bigtool_selections
    errors := u.errors.getD s.errors
    final_payload := upd s.final_payload u.final_payload }

/-! ## Branch predicates (`src/graph/workflow.py`, lines 29-54) -/

/-- `should_checkpoint` (src/graph/workflow.py:29-40):
`match_result = state.get("match_result", "")`; route to `checkpoint_hitl`
iff it equals `"FAILED"`, else to `reconcile`. -/
def should_checkpoint (s : InvState) : String :=
  if s.match_result.getD "" = "FAILED" then "checkpoint_hitl" else "reconcile"

/-- `should_continue_after_hitl` (src/graph/workflow.py:43-54):
`human_decision = state.get("human_decision", "")`; route to `reconcile`
iff it equals `"ACCEPT"`, else to `complete`. -/
def should_continue_after_hitl (s : InvState) : String :=
  if s.human_decision.getD "" = "ACCEPT" then "reconcile" else "complete"

/-! ## Persistence records (`src/database/models.py`) -/

/-- The `state_blob` dictionary persisted by `checkpoint_hitl_node`
(src/nodes/checkpoint.py:72-83): exactly these ten keys, read from the
current state (with defaults `0` for `match_score` and `"FAILED"` for
`match_result`). -/
structure StateBlob where
  workflow_id : String
  invoice_payload : InvoicePayload
  vendor_profile : VendorProfile
  normalized_invoice : NormalizedInvoice
  matched_pos : List PO
  match_score : ℚ
  match_result : String
  match_evidence : Dict
  flags : Dict
  bigtool_selections : Dict
deriving DecidableEq, Repr

/-- Build the persisted snapshot from the current state
(src/nodes/checkpoint.py:72-83). -/
def mkStateBlob (s : InvState) : StateBlob :=
  { workflow_id := s.workflow_id
    invoice_payload := s.invoice_payload
    vendor_profile := s.vendor_profile
    normalized_invoice := s.normalized_invoice
    matched_pos := s.matched_pos
    match_score := s.match_score.getD 0
    match_result := s.match_result.getD "FAILED"
    match_evidence := s.match_evidence
    flags := s.flags
    bigtool_selections := s.bigtool_selections }

/-- A row of the `checkpoints` table (`CheckpointModel`,
src/database/models.py:27-42). -/
structure Checkpoint where
  checkpoint_id : String
  workflow_id : String
  invoice_id : String
  vendor_name : String
  amount : ℚ
  state_blob : StateBlob
  reason_for_hold : String
  review_url : String
  status : String
  reviewer_id : Option String := none
  decision_at : Option Nat := none
  created_at : Nat
deriving DecidableEq, Repr

/-- A row of the `workflow_states` table (`WorkflowStateModel`,
src/database/models.py:58-67); the `state_data` JSON column is not
modelled (no embedded operation reads it back). -/
structure WorkflowStateRow where
  workflow_id : String
  current_stage : String
  status : String
  completed_at : Option Nat := none
deriving DecidableEq, Repr

/-- The relational store, restricted to the two tables the embedded
operations read or write.  (Audit-log and invoice rows are written but
never read back by the core; no claim inspects them.) -/
structure DB where
  checkpoints : List Checkpoint := []
  workflow_states : List WorkflowStateRow := []
deriving DecidableEq, Repr

/-- `session.query(CheckpointModel).filter(checkpoint_id == cid).first()`. -/
def findCheckpoint (l : List Checkpoint) (cid : String) : Option Checkpoint :=
  l.find? (fun c => c.checkpoint_id == cid)

/-- Mutate the first row matching the identifier (an ORM `.first()` fetch
followed by attribute assignment and `commit`); no-op when absent. -/
def updateFirstCheckpoint (f : Checkpoint → Checkpoint) (cid : String) :
    List Checkpoint → List Checkpoint
  | [] => []
  | c :: rest =>
    if c.checkpoint_id == cid then f c :: rest
    else c :: updateFirstCheckpoint f cid rest

/-- Same, for workflow-state rows keyed by workflow identifier. -/
def updateFirstWorkflow (f : WorkflowStateRow → WorkflowStateRow)
    (wid : String) : List WorkflowStateRow → List WorkflowStateRow
  | [] => []
  | w :: rest =>
    if w.workflow_id == wid then f w :: rest
    else w :: updateFirstWorkflow f wid rest

/-! ## Stage functions

Each node is the deterministic skeleton of the corresponding coroutine in
`src/nodes/`: the mocked ability calls from `src/mcp/abilities.py` are
inlined (they are pure given their inputs), `datetime.utcnow()` becomes the
`now` parameter, freshly generated UUID fragments become explicit string
parameters, and the backend name returned by the external tool selector
becomes an explicit string parameter. -/

/-- The suspension reason `f"Match score {match_score:.3f} below threshold"`
(src/nodes/checkpoint.py:63, echoed back by `create_checkpoint`,
src/mcp/abilities.py:155).  The fixed-point rendering of the float is
abstracted to the rounded count of thousandths; the reason remains a
function of the failed match score, which is what the claims consume. -/
def pausedReason (match_score : ℚ) : String :=
  "Match score " ++ toString (round (match_score * 1000) : ℤ) ++ " below threshold"

/-- `checkpoint_hitl_node` (src/nodes/checkpoint.py:19-118).
`uuid8` is the fresh UUID fragment of the checkpoint identifier;
`db_tool` the backend chosen by the external selector. -/
def checkpoint_hitl_node (s : InvState) (db : DB) (now : Nat)
    (uuid8 : String) (db_tool : String) : NodeUpdate × DB :=
  let match_score := s.match_score.getD 0
  -- create_checkpoint ability (src/mcp/abilities.py:146-157)
  let checkpoint_id := "CHKPT-" ++ uuid8
  let review_url := "/human-review/" ++ checkpoint_id
  let paused_reason := pausedReason match_score
  let cp : Checkpoint :=
    { checkpoint_id := checkpoint_id
      workflow_id := s.workflow_id
      invoice_id := s.invoice_payload.invoice_id
      vendor_name := s.invoice_payload.vendor_name
      amount := s.invoice_payload.amount
      state_blob := mkStateBlob s
      reason_for_hold := paused_reason
      review_url := review_url
      status := "PENDING"
      created_at := now }
  let selections := setKey s.bigtool_selections ("db", db_tool)
  ({ current_stage := some "CHECKPOINT_HITL"
     workflow_status := some "PAUSED"
     hitl_checkpoint_id := some checkpoint_id
     review_url := some review_url
     paused_reason := some paused_reason
     db_tool_used := some db_tool
     updated_at := some now
     bigtool_selections := some selections },
   { db with checkpoints := db.checkpoints ++ [cp] })

/-- The checkpoint mutation performed by `hitl_decision_node`
(src/nodes/hitl_decision.py:74-78): status to `ACCEPTED` iff the decision
equals `"ACCEPT"` and to `REJECTED` otherwise, recording reviewer and
decision timestamp. -/
def decideCheckpoint (decision reviewer : String) (now : Nat)
    (c : Checkpoint) : Checkpoint :=
  { c with
    status := if decision = "ACCEPT" then "ACCEPTED" else "REJECTED"
    reviewer_id := some reviewer
    decision_at := some now }

/-- `hitl_decision_node` (src/nodes/hitl_decision.py:16-101).
`tok` is the fresh UUID fragment of the resume token handed out by the
`get_human_decision` ability (src/mcp/abilities.py:412-423). -/
def hitl_decision_node (tok : String) (s : InvState) (db : DB) (now : Nat) :
    NodeUpdate × DB :=
  let checkpoint_id := s.hitl_checkpoint_id.getD ""
  let human_decision := s.human_decision.getD ""
  let reviewer_id := s.reviewer_id.getD ""
  if human_decision = "" then
    ({ current_stage := some "HITL_DECISION"
       errors := some (s.errors ++
         [{ stage := "HITL_DECISION", error := "No human decision provided"
            timestamp := now }]) }, db)
  else
    -- get_human_decision ability (src/mcp/abilities.py:412-423)
    let resume_token : Option String :=
      if human_decision = "ACCEPT" then some ("RESUME-" ++ tok) else none
    let db' : DB :=
      { db with checkpoints :=
          (updateFirstCheckpoint (decideCheckpoint human_decision reviewer_id now)
            checkpoint_id db.checkpoints) }
    if human_decision = "ACCEPT" then
      ({ current_stage := some "HITL_DECISION"
         workflow_status := some "RUNNING"
         human_decision := some human_decision
         reviewer_id := some reviewer_id
         resume_token := some resume_token
         next_stage := some "RECONCILE"
         updated_at := some now }, db')
    else
      ({ current_stage := some "HITL_DECISION"
         workflow_status := some "MANUAL_HANDOFF"
         human_decision := some human_decision
         reviewer_id := some reviewer_id
         resume_token := some none
         next_stage := some "COMPLETE"
         updated_at := some now }, db')

/-- `reconcile_node` (src/nodes/reconcile.py:14-71), with the
`build_accounting_entries` ability (src/mcp/abilities.py:159-190) inlined;
`je1`, `je2` are the fresh entry identifiers.  The `reconciliation_report`
summary dictionary is not modelled (no claim inspects it). -/
def reconcile_node (s : InvState) (now : Nat) (je1 je2 : String) : NodeUpdate :=
  let amount := s.normalized_invoice.amount.getD s.invoice_payload.amount
  let entries : List AccEntry :=
    [{ entry_id := je1, account_code := "2100"
       account_name := "Accounts Payable", debit := 0, credit := amount },
     { entry_id := je2, account_code := "5000"
       account_name := "Expense", debit := amount, credit := 0 }]
  { current_stage := some "RECONCILE"
    accounting_entries := some entries
    updated_at := some now }

/-- `approve_node` (src/nodes/approve.py:14-58), with the
`apply_approval_policy` ability (src/mcp/abilities.py:340-357) inlined
(auto-approve threshold 10000). -/
def approve_node (s : InvState) (now : Nat) : NodeUpdate :=
  let amount := s.normalized_invoice.amount.getD s.invoice_payload.amount
  let auto := amount ≤ 10000
  { current_stage := some "APPROVE"
    approval_status := some (if auto then "AUTO_APPROVED" else "ESCALATED")
    approver_id := some (if auto then "SYSTEM" else "MGR-001")
    updated_at := some now }

/-- `posting_node` (src/nodes/posting.py:15-82), with `post_to_erp` and
`schedule_payment` (src/mcp/abilities.py:359-382) inlined; `erp`, `pay` are
the fresh transaction / payment identifier fragments. -/
def posting_node (_s : InvState) (now : Nat) (erp pay : String) : NodeUpdate :=
  { current_stage := some "POSTING"
    posted := some true
    erp_txn_id := some ("ERP-TXN-" ++ erp)
    scheduled_payment_id := some ("PAY-" ++ pay)
    updated_at := some now }

/-- `notify_node` (src/nodes/notify.py:15-94), with `notify_vendor` and
`notify_finance_team` (src/mcp/abilities.py:384-410) inlined — both always
report `notification_sent=True`; `email_tool` is the backend chosen by the
external selector.  The `notify_status` dictionary is not modelled. -/
def notify_node (s : InvState) (now : Nat) (email_tool : String) : NodeUpdate :=
  let notified := [s.invoice_payload.vendor_name, "finance-team"]
  let selections := setKey s.bigtool_selections ("email", email_tool)
  { current_stage := some "NOTIFY"
    notified_parties := some notified
    email_tool_used := some email_tool
    updated_at := some now
    bigtool_selections := some selections }

/-- `complete_node` (src/nodes/complete.py:18-160): computes the final
status (`MANUAL_HANDOFF` iff the stored human decision equals `"REJECT"`
exactly, else `PAUSED` iff the in-flight status is `PAUSED`, else
`COMPLETED`), builds the final payload, and updates the workflow-state row.
The audit-log rows it also persists are not modelled (never read back). -/
def complete_node (s : InvState) (db : DB) (now : Nat) : NodeUpdate × DB :=
  let workflow_status := s.workflow_status.getD "COMPLETED"
  let final_status :=
    if s.human_decision = some "REJECT" then "MANUAL_HANDOFF"
    else if workflow_status = "PAUSED" then "PAUSED"
    else "COMPLETED"
  let fp : FinalPayload :=
    { workflow_id := s.workflow_id
      invoice_id := s.invoice_payload.invoice_id
      vendor_name := s.invoice_payload.vendor_name
      amount := s.invoice_payload.amount
      currency := s.invoice_payload.currency
      status := final_status
      match_score := s.match_score
      match_result := s.match_result
      approval_status := s.approval_status
      posted := s.posted.getD false
      erp_txn_id := s.erp_txn_id
      scheduled_payment_id := s.scheduled_payment_id
      accounting_entries_count := s.accounting_entries.length
      notified_parties := s.notified_parties
      bigtool_selections := s.bigtool_selections
      completed_at := now }
  let db' : DB :=
    { db with workflow_states :=
        (updateFirstWorkflow
          (fun w => { w with status := final_status, current_stage := "COMPLETE",
                             completed_at := some now })
          s.workflow_id db.workflow_states) }
  ({ current_stage := some "COMPLETE"
     workflow_status := some final_status
     final_payload := some fp
     updated_at := some now }, db')

/-! ## Resume (`src/graph/workflow.py`, lines 223-316) -/

/-- The fresh UUID fragments and externally selected backend names consumed
by one resume run. -/
structure FreshIds where
  resume_tok : String := "tok0"
  je1 : String := "je0001"
  je2 : String := "je0002"
  erp : String := "erp0"
  pay : String := "pay0"
  erp_tool : String := "mock_erp"
  email_tool : String := "ses"
deriving Repr

/-- The resume graph built in `resume_workflow`
(src/graph/workflow.py:272-297): entry `hitl_decision`, then the
`should_continue_after_hitl` conditional dispatcher, then either the linear
chain `reconcile → approve → posting → notify → complete` or `complete`
directly.  The third component is the trace of executed node names, the
observation the terminal-coverage claims are stated against. -/
def runResume (fr : FreshIds) (now : Nat) (s : InvState) (db : DB) :
    InvState × DB × List String :=
  let r1 := hitl_decision_node fr.resume_tok s db now
  let s1 := applyUpdate s r1.1
  if should_continue_after_hitl s1 = "reconcile" then
    let s2 := applyUpdate s1 (reconcile_node s1 now fr.je1 fr.je2)
    let s3 := applyUpdate s2 (approve_node s2 now)
    let s4 := applyUpdate s3 (posting_node s3 now fr.erp fr.pay)
    let s5 := applyUpdate s4 (notify_node s4 now fr.email_tool)
    let r6 := complete_node s5 r1.2 now
    (applyUpdate s5 r6.1, r6.2,
     ["hitl_decision", "reconcile", "approve", "posting", "notify", "complete"])
  else
    let r2 := complete_node s1 r1.2 now
    (applyUpdate s1 r2.1, r2.2, ["hitl_decision", "complete"])

/-- The dictionary returned by `resume_workflow`: the two early-error
shapes (src/graph/workflow.py:244-254) and the success shape
(src/graph/workflow.py:302-307). -/
structure ResumeResult where
  status : String
  message : String
  workflow_id : Option String := none
  final_payload : Option FinalPayload := none
deriving DecidableEq, Repr

/-- Reconstruct a state from the persisted snapshot: only the blob's ten
keys are present (`resume_state = {**state_blob, ...}`,
src/graph/workflow.py:262-269); every other field is absent. -/
def blobToState (b : StateBlob) : InvState :=
  { workflow_id := b.workflow_id
    invoice_payload := b.invoice_payload
    vendor_profile := b.vendor_profile
    normalized_invoice := b.normalized_invoice
    matched_pos := b.matched_pos
    match_score := some b.match_score
    match_result := some b.match_result
    match_evidence := b.match_evidence
    flags := b.flags
    bigtool_selections := b.bigtool_selections }

/-- `InvoiceProcessingGraph.resume_workflow` (src/graph/workflow.py:223-316):
fetch the checkpoint (error when absent), guard on `PENDING` status (error
otherwise, both without touching the store), overlay the decision fields on
the reconstructed snapshot, and drive the resume graph to its terminal
state.  The unused `notes` argument of the original signature is kept. -/
def resume_workflow (fr : FreshIds) (now : Nat) (db : DB)
    (checkpoint_id decision reviewer_id _notes : String) :
    ResumeResult × DB × List String :=
  match findCheckpoint db.checkpoints checkpoint_id with
  | none =>
    ({ status := "ERROR"
       message := "Checkpoint " ++ checkpoint_id ++ " not found" }, db, [])
  | some cp =>
    if cp.status ≠ "PENDING" then
      ({ status := "ERROR"
         message := "Checkpoint already processed: " ++ cp.status }, db, [])
    else
      let resume_state : InvState :=
        { blobToState cp.state_blob with
          workflow_status := some "RUNNING"
          human_decision := some decision
          reviewer_id := some reviewer_id
          hitl_checkpoint_id := some checkpoint_id
          updated_at := some now }
      let r := runResume fr now resume_state db
      ({ workflow_id := some cp.workflow_id
         status := r.1.workflow_status.getD "COMPLETED"
         final_payload := r.1.final_payload
         message := "Workflow resumed and completed after " ++ decision },
       r.2.1, r.2.2)

/-- The dictionary `start_workflow` returns to its caller
(src/graph/workflow.py:196-212), as a function of the final state reached
by the main graph. -/
structure StartResult where
  workflow_id : String
  status : String
  checkpoint_id : Option String := none
  review_url : Option String := none
  final_payload : Option FinalPayload := none
  message : String
deriving DecidableEq, Repr

/-- `start_workflow`'s result shaping (src/graph/workflow.py:196-212):
when the final state's status is `PAUSED` the checkpoint identifier and
review URL are attached; otherwise the final payload is returned. -/
def start_result (workflow_id : String) (final : InvState) : StartResult :=
  if final.workflow_status = some "PAUSED" then
    { workflow_id := workflow_id
      status := "PAUSED"
      checkpoint_id := final.hitl_checkpoint_id
      review_url := final.review_url
      message := "Workflow paused for human review" }
  else
    { workflow_id := workflow_id
      status := final.workflow_status.getD "COMPLETED"
      final_payload := final.final_payload
      message := "Workflow completed successfully" }

/-! ## Spec-modelled components

The Executor's stage loop and its state-merge discipline are implemented by
the external graph library, not by code under `src/`; the design document
specifies both (§4.2 and §4.3).  They are modelled here from the
specification's words. -/

/-- Look a key up in an association-list dictionary. -/
def getKey : Dict → String → Option String
  | [], _ => none
  | (k, v) :: rest, key => if k = key then some v else getKey rest key

/-- The value of the last write to `key` in an update dictionary, if any. -/
def lastWrite : Dict → String → Option String
  | [], _ => none
  | kv :: rest, key =>
    upd (if kv.1 = key then some kv.2 else none) (lastWrite rest key)

/-- Modelled from the spec: the WorkflowState fields exercised by the merge
discipline of §4.2 — scalar fields, the two list-typed fields (errors,
notified parties), the capability→backend mapping, and the always-refreshed
`updated_at`. -/
structure MergeState where
  workflow_id : String
  current_stage : String
  match_score : ℚ
  errors : List ErrRec
  notified_parties : List String
  bigtool_selections : Dict
  updated_at : Nat
deriving DecidableEq, Repr

/-- Modelled from the spec: a PartialUpdate over those fields; `some` marks
a scalar field the stage actually computed. -/
structure MergeDelta where
  workflow_id : Option String := none
  current_stage : Option String := none
  match_score : Option ℚ := none
  errors : List ErrRec := []
  notified_parties : List String := []
  bigtool_selections : Dict := []
deriving Repr

/-- Modelled from the spec: the Executor's field-by-field merge of a
PartialUpdate into WorkflowState (§4.2) — scalar fields are overwritten,
list-typed fields are appended, mapping-typed fields are merged key-by-key
with later writes overriding, and `updated_at` is refreshed to the merge
time. -/
def mergeUpdate (now : Nat) (s : MergeState) (u : MergeDelta) : MergeState :=
  { workflow_id := u.workflow_id.getD s.workflow_id
    current_stage := u.current_stage.getD s.current_stage
    match_score := u.match_score.getD s.match_score
    errors := s.errors ++ u.errors
    notified_parties := s.notified_parties ++ u.notified_parties
    bigtool_selections := u.bigtool_selections.foldl setKey s.bigtool_selections
    updated_at := now }

/-- Modelled from the spec: a node's outgoing connection (§4.3 step (e)) —
either a selector over the merged state naming the next node (an
unconditional edge being a constant selector), or termination with a
resulting status. -/
inductive ExecEdge (σ : Type) where
  | next (select : σ → String) : ExecEdge σ
  | terminal (finalStatus : σ → String) : ExecEdge σ

/-- Modelled from the spec: one stage of the graph — its stage function
composed with the merge, whether it is the designated suspend node, and its
outgoing connection. -/
structure ExecNode (σ : Type) where
  stage : σ → σ
  suspend : Bool
  edge : ExecEdge σ

/-- Modelled from the spec: an immutable graph definition — named nodes and
a single entry node. -/
structure ExecGraph (σ : Type) where
  nodes : List (String × ExecNode σ)
  entry : String

/-- Modelled from the spec: the Executor's stage loop (§4.3) with an
explicit fuel budget.  An exhausted budget, like an unknown node name, is
an Executor fault and yields `FAILED`; a suspend node stops with `PAUSED`
(checkpoint persistence is modelled separately by `checkpoint_hitl_node`);
a terminal node stops with its resulting status.  The second component
counts the stage invocations performed. -/
def execGo {σ : Type} (g : ExecGraph σ) : Nat → String → σ → String × Nat
  | 0, _, _ => ("FAILED", 0)
  | fuel + 1, cur, s =>
    match g.nodes.find? (fun p => p.1 == cur) with
    | none => ("FAILED", 0)
    | some p =>
      let n := p.2
      let s' := n.stage s
      if n.suspend then ("PAUSED", 1)
      else
        match n.edge with
        | ExecEdge.terminal fin => (fin s', 1)
        | ExecEdge.next sel =>
          let r := execGo g fuel (sel s') s'
          (r.1, r.2 + 1)

/-- Modelled from the spec: a run starts at the entry node with a hard
iteration cap equal to the graph's node count (§4.3 step (g)). -/
def executorRun {σ : Type} (g : ExecGraph σ) (s : σ) : String × Nat :=
  execGo g g.nodes.length g.entry s

/-! ## Concrete sample values used by witnesses and counterexamples -/

/-- A concrete persisted snapshot. -/
def sampleBlob : StateBlob :=
  { workflow_id := "WF-1", invoice_payload := {}, vendor_profile := {},
    normalized_invoice := {}, matched_pos := [], match_score := 0,
    match_result := "FAILED", match_evidence := [], flags := [],
    bigtool_selections := [] }

/-- A concrete pending checkpoint row. -/
def sampleCp : Checkpoint :=
  { checkpoint_id := "CHKPT-X", workflow_id := "WF-1", invoice_id := "INV-1",
    vendor_name := "V", amount := 0, state_blob := sampleBlob,
    reason_for_hold := "r", review_url := "/human-review/CHKPT-X",
    status := "PENDING", created_at := 0 }

/-- A concrete store holding exactly the pending checkpoint. -/
def sampleDb : DB := { checkpoints := [sampleCp], workflow_states := [] }

/-- The sample checkpoint after a decision. -/
def sampleCpDone : Checkpoint := { sampleCp with status := "ACCEPTED" }

/-- A concrete store holding exactly the already-decided checkpoint. -/
def sampleDbDone : DB := { checkpoints := [sampleCpDone], workflow_states := [] }

/-- A one-node graph whose single edge loops back to itself: the malformed
(cyclic) graph of the termination claim. -/
def cycleGraph : ExecGraph Unit :=
  { nodes := [("a", { stage := id, suspend := false,
                      edge := ExecEdge.next (fun _ => "a") })]
    entry := "a" }

/-! ## Theorems: two-way match scoring -/

theorem matchFold_zero_skip (a : ℚ) (hli : Bool) (acc : ℚ × Option PO)
    (po : PO) (h : po.amount = 0) : matchFold a hli acc po = acc := by
  simp [matchFold, h]

theorem bestOf_all_zero (a : ℚ) (hli : Bool) (pos : List PO)
    (h : ∀ p ∈ pos, p.amount = 0) : bestOf a hli pos = (0, none) := by
  induction pos with
  | nil => rfl
  | cons p rest ih =>
    have hp : matchFold a hli (0, none) p = (0, none) :=
      matchFold_zero_skip a hli (0, none) p (h p (by simp))
    have hrest : ∀ q ∈ rest, q.amount = 0 := fun q hq => h q (by simp [hq])
    simp only [bestOf, List.foldl_cons, hp]
    exact ih hrest

theorem div_hundred_mul (x : ℚ) : x * 100 / 100 = x := by ring

/-- C1.  The two-way match score is, per candidate, the weighted sum
`0.6 * max 0 (1 - |invoice_amount - candidate_amount| / candidate_amount)
 + 0.4 * (0.8 if line items exist else 0.5)`; the best candidate's
(unrounded) score decides the verdict against the threshold; an empty
candidate list yields score `0.0` and `FAILED` regardless of threshold;
and invoice amount 10000 against a single candidate of amount 10000 with
line items present and threshold 0.90 scores `0.92` and is `MATCHED`. -/
theorem match_scoring_C1 (inv : MatchInvoice) (pos : List PO) (θ tol : ℚ) :
    (∀ a p : ℚ, ∀ hli : Bool,
        candScore a hli p
          = (6/10) * max 0 (1 - |a - p| / p)
            + (4/10) * (if hli then (8:ℚ)/10 else 5/10))
    ∧ (pos ≠ [] →
        ((compute_match_score inv pos θ tol).match_result = "MATCHED"
          ↔ θ ≤ (bestOf inv.amount (!inv.line_items.isEmpty) pos).1))
    ∧ (pos ≠ [] →
        (compute_match_score inv pos θ tol).match_score
          = round3 (bestOf inv.amount (!inv.line_items.isEmpty) pos).1)
    ∧ compute_match_score inv [] θ tol
        = { match_score := 0, match_result := "FAILED", tolerance_pct := tol,
            best_po := none, invoice_amount := inv.amount, po_amount := none,
            threshold_used := θ }
    ∧ (compute_match_score ⟨10000, [⟨"Service A", 1, 10000, 10000⟩]⟩
          [⟨"PO-1", 10000⟩] (9/10) 5).match_score = 23/25
    ∧ (compute_match_score ⟨10000, [⟨"Service A", 1, 10000, 10000⟩]⟩
          [⟨"PO-1", 10000⟩] (9/10) 5).match_result = "MATCHED" := by
  refine ⟨?_, ?_, ?_, ?_, ?_, ?_⟩
  · intro a p hli
    simp only [candScore, div_hundred_mul]
    cases hli <;> simp <;> ring
  · intro h
    simp only [compute_match_score, if_neg h, ge_iff_le]
    split_ifs with hb
    · exact iff_of_true rfl hb
    · exact iff_of_false (by decide) hb
  · intro h
    simp [compute_match_score, h]
  · simp [compute_match_score]
  · norm_num [compute_match_score, bestOf, matchFold, candScore, round3,
      round_eq]
  · norm_num [compute_match_score, bestOf, matchFold, candScore]

theorem match_scoring_C1_wit :
    (([⟨"PO-1", (10000:ℚ)⟩] : List PO) ≠ [])
    ∧ ((compute_match_score ⟨10000, [⟨"Service A", 1, 10000, 10000⟩]⟩
          [⟨"PO-1", 10000⟩] (9/10) 5).match_result = "MATCHED"
        ↔ (9:ℚ)/10 ≤ (bestOf 10000
            (!([⟨"Service A", (1:ℚ), 10000, 10000⟩] : List LineItem).isEmpty)
            [⟨"PO-1", 10000⟩]).1) :=
  ⟨by simp,
   (match_scoring_C1 ⟨10000, [⟨"Service A", 1, 10000, 10000⟩]⟩
      [⟨"PO-1", 10000⟩] (9/10) 5).2.1 (by simp)⟩

/-- C9.  Candidates whose amount is `0` are skipped before the division by
the candidate amount; when every candidate of a non-empty list has amount
`0`, the best score is `0.0` and the result is `FAILED` for any positive
threshold. -/
theorem zero_candidates_C9 (a : ℚ) (hli : Bool) (acc : ℚ × Option PO)
    (po : PO) (inv : MatchInvoice) (pos : List PO) (θ tol : ℚ) :
    (po.amount = 0 → matchFold a hli acc po = acc)
    ∧ (pos ≠ [] → (∀ p ∈ pos, p.amount = 0) → 0 < θ →
        (compute_match_score inv pos θ tol).match_score = 0
        ∧ (compute_match_score inv pos θ tol).match_result = "FAILED") := by
  constructor
  · exact matchFold_zero_skip a hli acc po
  · intro hne hall hθ
    have hb := bestOf_all_zero inv.amount (!inv.line_items.isEmpty) pos hall
    constructor
    · simp [compute_match_score, hne, hb, round3]
    · simp [compute_match_score, hne, hb, not_le.mpr hθ]

theorem zero_candidates_C9_wit :
    ((⟨"P", (0:ℚ)⟩ : PO).amount = 0
      ∧ matchFold 5 true ((1:ℚ), none) ⟨"P", 0⟩ = (1, none))
    ∧ (([⟨"P", (0:ℚ)⟩, ⟨"Q", 0⟩] : List PO) ≠ []
      ∧ (∀ p ∈ ([⟨"P", (0:ℚ)⟩, ⟨"Q", 0⟩] : List PO), p.amount = 0)
      ∧ (0:ℚ) < 9/10
      ∧ (compute_match_score ⟨75000, []⟩ [⟨"P", 0⟩, ⟨"Q", 0⟩]
            (9/10) 5).match_score = 0
      ∧ (compute_match_score ⟨75000, []⟩ [⟨"P", 0⟩, ⟨"Q", 0⟩]
            (9/10) 5).match_result = "FAILED") := by
  have h1 : (⟨"P", (0:ℚ)⟩ : PO).amount = 0 := rfl
  have h2 : ([⟨"P", (0:ℚ)⟩, ⟨"Q", 0⟩] : List PO) ≠ [] := by simp
  have h3 : ∀ p ∈ ([⟨"P", (0:ℚ)⟩, ⟨"Q", 0⟩] : List PO), p.amount = 0 := by
    intro p hp
    simp only [List.mem_cons, List.not_mem_nil, or_false] at hp
    rcases hp with h | h <;> simp [h]
  have h4 : (0:ℚ) < 9/10 := by norm_num
  have main := zero_candidates_C9 5 true ((1:ℚ), none) ⟨"P", 0⟩
    ⟨75000, []⟩ [⟨"P", 0⟩, ⟨"Q", 0⟩] (9/10) 5
  exact ⟨⟨h1, main.1 h1⟩, h2, h3, h4, (main.2 h2 h3 h4).1, (main.2 h2 h3 h4).2⟩

/-! ## Theorems: checkpoint store and resume protocol -/

theorem decideCheckpoint_id (d r : String) (now : Nat) (c : Checkpoint) :
    (decideCheckpoint d r now c).checkpoint_id = c.checkpoint_id := rfl

theorem decideCheckpoint_status (d r : String) (now : Nat) (c : Checkpoint) :
    (decideCheckpoint d r now c).status
      = (if d = "ACCEPT" then "ACCEPTED" else "REJECTED") := rfl

theorem findCheckpoint_updateFirst (f : Checkpoint → Checkpoint) (cid : String)
    (l : List Checkpoint) (hf : ∀ c, (f c).checkpoint_id = c.checkpoint_id) :
    findCheckpoint (updateFirstCheckpoint f cid l) cid
      = (findCheckpoint l cid).map f := by
  induction l with
  | nil => rfl
  | cons c rest ih =>
    by_cases h : c.checkpoint_id = cid
    · rw [updateFirstCheckpoint, if_pos (by simp [h])]
      rw [findCheckpoint, List.find?_cons_of_pos _ (by simp [hf, h]),
        findCheckpoint, List.find?_cons_of_pos _ (by simp [h])]
      rfl
    · rw [updateFirstCheckpoint, if_neg (by simp [h])]
      rw [findCheckpoint, List.find?_cons_of_neg _ (by simp [h]),
        findCheckpoint, List.find?_cons_of_neg _ (by simp [h])]
      exact ih

theorem runResume_no_accept_trace (fr : FreshIds) (now : Nat) (s : InvState)
    (db : DB) (d : String) (hd : s.human_decision = some d) (hne : d ≠ "")
    (hna : d ≠ "ACCEPT") :
    (runResume fr now s db).2.2 = ["hitl_decision", "complete"] := by
  simp [runResume, hitl_decision_node, should_continue_after_hitl,
    applyUpdate, upd, hd, hne, hna]

theorem runResume_no_accept_status (fr : FreshIds) (now : Nat) (s : InvState)
    (db : DB) (d : String) (hd : s.human_decision = some d) (hne : d ≠ "")
    (hna : d ≠ "ACCEPT") :
    (runResume fr now s db).1.workflow_status
      = some (if d = "REJECT" then "MANUAL_HANDOFF" else "COMPLETED") := by
  by_cases hr : d = "REJECT" <;>
    simp [runResume, hitl_decision_node, should_continue_after_hitl,
      complete_node, applyUpdate, upd, hd, hne, hna, hr]

theorem runResume_no_accept_checkpoints (fr : FreshIds) (now : Nat)
    (s : InvState) (db : DB) (d : String) (hd : s.human_decision = some d)
    (hne : d ≠ "") (hna : d ≠ "ACCEPT") :
    (runResume fr now s db).2.1.checkpoints
      = updateFirstCheckpoint (decideCheckpoint d (s.reviewer_id.getD "") now)
          (s.hitl_checkpoint_id.getD "") db.checkpoints := by
  simp [runResume, hitl_decision_node, should_continue_after_hitl,
    complete_node, applyUpdate, upd, hd, hne, hna]

theorem runResume_accept_trace (fr : FreshIds) (now : Nat) (s : InvState)
    (db : DB) (hd : s.human_decision = some "ACCEPT") :
    (runResume fr now s db).2.2
      = ["hitl_decision", "reconcile", "approve", "posting", "notify",
         "complete"] := by
  simp [runResume, hitl_decision_node, should_continue_after_hitl,
    applyUpdate, upd, hd]

theorem runResume_accept_status (fr : FreshIds) (now : Nat) (s : InvState)
    (db : DB) (hd : s.human_decision = some "ACCEPT") :
    (runResume fr now s db).1.workflow_status = some "COMPLETED" := by
  simp [runResume, hitl_decision_node, should_continue_after_hitl,
    complete_node, reconcile_node, approve_node, posting_node, notify_node,
    applyUpdate, upd, hd]

theorem runResume_accept_checkpoints (fr : FreshIds) (now : Nat)
    (s : InvState) (db : DB) (hd : s.human_decision = some "ACCEPT") :
    (runResume fr now s db).2.1.checkpoints
      = updateFirstCheckpoint
          (decideCheckpoint "ACCEPT" (s.reviewer_id.getD "") now)
          (s.hitl_checkpoint_id.getD "") db.checkpoints := by
  simp [runResume, hitl_decision_node, should_continue_after_hitl,
    complete_node, reconcile_node, approve_node, posting_node, notify_node,
    applyUpdate, upd, hd]

theorem runResume_empty_checkpoints (fr : FreshIds) (now : Nat)
    (s : InvState) (db : DB) (hd : s.human_decision = some "") :
    (runResume fr now s db).2.1.checkpoints = db.checkpoints := by
  simp [runResume, hitl_decision_node, should_continue_after_hitl,
    complete_node, applyUpdate, upd, hd]

theorem resume_notfound (fr : FreshIds) (now : Nat) (db : DB)
    (cid d r n : String) (h : findCheckpoint db.checkpoints cid = none) :
    resume_workflow fr now db cid d r n
      = ({ status := "ERROR",
           message := "Checkpoint " ++ cid ++ " not found" }, db, []) := by
  simp [resume_workflow, h]

theorem resume_decided (fr : FreshIds) (now : Nat) (db : DB)
    (cid d r n : String) (cp : Checkpoint)
    (h : findCheckpoint db.checkpoints cid = some cp)
    (hs : cp.status ≠ "PENDING") :
    resume_workflow fr now db cid d r n
      = ({ status := "ERROR",
           message := "Checkpoint already processed: " ++ cp.status },
         db, []) := by
  simp [resume_workflow, h, hs]

theorem resume_success_checkpoints (fr : FreshIds) (now : Nat) (db : DB)
    (cid d r n : String) (cp : Checkpoint)
    (h : findCheckpoint db.checkpoints cid = some cp)
    (hp : cp.status = "PENDING") (hne : d ≠ "") :
    (resume_workflow fr now db cid d r n).2.1.checkpoints
      = updateFirstCheckpoint (decideCheckpoint d r now) cid db.checkpoints := by
  simp only [resume_workflow, h, hp, ne_eq, not_true_eq_false, if_false]
  by_cases ha : d = "ACCEPT"
  · subst ha
    exact runResume_accept_checkpoints fr now _ db rfl
  · exact runResume_no_accept_checkpoints fr now _ db d rfl hne ha

theorem resume_success_find (fr : FreshIds) (now : Nat) (db : DB)
    (cid d r n : String) (cp : Checkpoint)
    (h : findCheckpoint db.checkpoints cid = some cp)
    (hp : cp.status = "PENDING") (hne : d ≠ "") :
    findCheckpoint (resume_workflow fr now db cid d r n).2.1.checkpoints cid
      = some (decideCheckpoint d r now cp) := by
  rw [resume_success_checkpoints fr now db cid d r n cp h hp hne,
    findCheckpoint_updateFirst _ _ _ (decideCheckpoint_id d r now), h]
  rfl

/-- C2.  Resume fails with a NotFound error when no checkpoint carries the
requested identifier, and with an AlreadyDecided error when the checkpoint
is not `PENDING`; in both error cases the store is returned untouched and
no stage runs.  A second resume of a checkpoint just decided by a first
resume (with a nonempty decision) gets the AlreadyDecided error, again
with no state change. -/
theorem resume_error_handling_C2 (fr fr2 : FreshIds) (now now2 : Nat)
    (db : DB) (cid d r n d2 r2 n2 : String) (cp : Checkpoint) :
    (findCheckpoint db.checkpoints cid = none →
      resume_workflow fr now db cid d r n
        = ({ status := "ERROR",
             message := "Checkpoint " ++ cid ++ " not found" }, db, []))
    ∧ (findCheckpoint db.checkpoints cid = some cp → cp.status ≠ "PENDING" →
      resume_workflow fr now db cid d r n
        = ({ status := "ERROR",
             message := "Checkpoint already processed: " ++ cp.status },
           db, []))
    ∧ (findCheckpoint db.checkpoints cid = some cp → cp.status = "PENDING" →
      d ≠ "" →
      resume_workflow fr2 now2 (resume_workflow fr now db cid d r n).2.1
          cid d2 r2 n2
        = ({ status := "ERROR",
             message := "Checkpoint already processed: "
               ++ (if d = "ACCEPT" then "ACCEPTED" else "REJECTED") },
           (resume_workflow fr now db cid d r n).2.1, [])) := by
  refine ⟨resume_notfound fr now db cid d r n, ?_, ?_⟩
  · exact resume_decided fr now db cid d r n cp
  · intro h hp hne
    have hfind2 := resume_success_find fr now db cid d r n cp h hp hne
    have hst : (decideCheckpoint d r now cp).status ≠ "PENDING" := by
      by_cases ha : d = "ACCEPT" <;> simp [decideCheckpoint, ha]
    have := resume_decided fr2 now2 (resume_workflow fr now db cid d r n).2.1
      cid d2 r2 n2 (decideCheckpoint d r now cp) hfind2 hst
    rw [this, decideCheckpoint_status]

theorem resume_error_handling_C2_wit :
    (findCheckpoint sampleDb.checkpoints "CHKPT-NONE" = none
      ∧ resume_workflow {} 7 sampleDb "CHKPT-NONE" "ACCEPT" "rev" ""
        = ({ status := "ERROR",
             message := "Checkpoint " ++ "CHKPT-NONE" ++ " not found" },
           sampleDb, []))
    ∧ (findCheckpoint sampleDbDone.checkpoints "CHKPT-X" = some sampleCpDone
      ∧ sampleCpDone.status ≠ "PENDING"
      ∧ resume_workflow {} 7 sampleDbDone "CHKPT-X" "ACCEPT" "rev" ""
        = ({ status := "ERROR",
             message := "Checkpoint already processed: "
               ++ sampleCpDone.status }, sampleDbDone, []))
    ∧ (findCheckpoint sampleDb.checkpoints "CHKPT-X" = some sampleCp
      ∧ sampleCp.status = "PENDING" ∧ ("REJECT" : String) ≠ ""
      ∧ resume_workflow {} 8
          (resume_workflow {} 7 sampleDb "CHKPT-X" "REJECT" "rev" "").2.1
          "CHKPT-X" "ACCEPT" "rev2" ""
        = ({ status := "ERROR",
             message := "Checkpoint already processed: "
               ++ (if ("REJECT" : String) = "ACCEPT" then "ACCEPTED"
                   else "REJECTED") },
           (resume_workflow {} 7 sampleDb "CHKPT-X" "REJECT" "rev" "").2.1,
           [])) := by
  have h1 : findCheckpoint sampleDb.checkpoints "CHKPT-NONE" = none := by
    simp [sampleDb, sampleCp, findCheckpoint]
  have h2 : findCheckpoint sampleDbDone.checkpoints "CHKPT-X"
      = some sampleCpDone := by
    simp [sampleDbDone, findCheckpoint, List.find?, sampleCpDone, sampleCp]
  have h2s : sampleCpDone.status ≠ "PENDING" := by
    simp [sampleCpDone, sampleCp]
  have h3 : findCheckpoint sampleDb.checkpoints "CHKPT-X" = some sampleCp := by
    simp [sampleDb, findCheckpoint, List.find?, sampleCp]
  have h3s : sampleCp.status = "PENDING" := rfl
  have h3d : ("REJECT" : String) ≠ "" := by decide
  refine ⟨⟨h1, ?_⟩, ⟨h2, h2s, ?_⟩, ⟨h3, h3s, h3d, ?_⟩⟩
  · exact (resume_error_handling_C2 {} {} 7 7 sampleDb "CHKPT-NONE" "ACCEPT"
      "rev" "" "" "" "" sampleCp).1 h1
  · exact (resume_error_handling_C2 {} {} 7 7 sampleDbDone "CHKPT-X" "ACCEPT"
      "rev" "" "" "" "" sampleCpDone).2.1 h2 h2s
  · exact (resume_error_handling_C2 {} {} 7 8 sampleDb "CHKPT-X" "REJECT"
      "rev" "" "ACCEPT" "rev2" "" sampleCp).2.2 h3 h3s h3d

/-- C3 (amended).  Via resume, a `PENDING` checkpoint transitions exactly
once: to `ACCEPTED` exactly when the decision equals `"ACCEPT"` and to
`REJECTED` for any other *nonempty* decision, with reviewer and decision
timestamp recorded; with the empty-string decision the resume run records
an error and leaves every checkpoint untouched (still `PENDING`); and a
checkpoint whose status is not `PENDING` rejects any further decision
attempt with no state change. -/
theorem checkpoint_transition_C3 (fr : FreshIds) (now : Nat) (db : DB)
    (cid d r n : String) (cp : Checkpoint) :
    (findCheckpoint db.checkpoints cid = some cp → cp.status = "PENDING" →
      d ≠ "" →
      findCheckpoint (resume_workflow fr now db cid d r n).2.1.checkpoints cid
        = some { cp with
            status := if d = "ACCEPT" then "ACCEPTED" else "REJECTED",
            reviewer_id := some r, decision_at := some now }
      ∧ (resume_workflow fr now db cid d r n).2.1.checkpoints
        = updateFirstCheckpoint (decideCheckpoint d r now) cid db.checkpoints)
    ∧ (findCheckpoint db.checkpoints cid = some cp → cp.status = "PENDING" →
      (resume_workflow fr now db cid "" r n).2.1.checkpoints = db.checkpoints)
    ∧ (findCheckpoint db.checkpoints cid = some cp → cp.status ≠ "PENDING" →
      (resume_workflow fr now db cid d r n).2.1 = db
      ∧ (resume_workflow fr now db cid d r n).1.status = "ERROR") := by
  refine ⟨?_, ?_, ?_⟩
  · intro h hp hne
    exact ⟨resume_success_find fr now db cid d r n cp h hp hne,
      resume_success_checkpoints fr now db cid d r n cp h hp hne⟩
  · intro h hp
    simp only [resume_workflow, h, hp, ne_eq, not_true_eq_false, if_false]
    exact runResume_empty_checkpoints fr now _ db rfl
  · intro h hs
    rw [resume_decided fr now db cid d r n cp h hs]
    exact ⟨rfl, rfl⟩

/-- C3, counterexample to the claim as stated: resuming a `PENDING`
checkpoint with the empty-string decision is not rejected (the run reports
`COMPLETED`), yet the checkpoint's status does not become `REJECTED` — it
stays `PENDING`, so "status becomes REJECTED for any decision other than
ACCEPT" fails, and the checkpoint remains open to a further attempt. -/
theorem checkpoint_transition_C3_cex :
    ("" : String) ≠ "ACCEPT"
    ∧ (resume_workflow {} 7 sampleDb "CHKPT-X" "" "rev" "").1.status
        = "COMPLETED"
    ∧ (findCheckpoint
        (resume_workflow {} 7 sampleDb "CHKPT-X" "" "rev" "").2.1.checkpoints
        "CHKPT-X").map Checkpoint.status = some "PENDING"
    ∧ some "PENDING" ≠ some "REJECTED" := by
  have h3 : findCheckpoint sampleDb.checkpoints "CHKPT-X" = some sampleCp := by
    simp [sampleDb, findCheckpoint, List.find?, sampleCp]
  refine ⟨by decide, ?_, ?_, by decide⟩
  · simp only [resume_workflow, h3, sampleCp, ne_eq, not_true_eq_false,
      if_false]
    simp [runResume, hitl_decision_node, should_continue_after_hitl,
      complete_node, applyUpdate, upd, blobToState, sampleBlob]
  · have hchk : (resume_workflow {} 7 sampleDb "CHKPT-X" "" "rev" ""
        ).2.1.checkpoints = sampleDb.checkpoints := by
      simp only [resume_workflow, h3, sampleCp, ne_eq, not_true_eq_false,
        if_false]
      exact runResume_empty_checkpoints {} 7 _ sampleDb rfl
    rw [hchk, h3]
    rfl

theorem checkpoint_transition_C3_wit :
    (findCheckpoint sampleDb.checkpoints "CHKPT-X" = some sampleCp
      ∧ sampleCp.status = "PENDING" ∧ ("ACCEPT" : String) ≠ ""
      ∧ findCheckpoint
          (resume_workflow {} 7 sampleDb "CHKPT-X" "ACCEPT" "rev" ""
            ).2.1.checkpoints "CHKPT-X"
        = some { sampleCp with
            status := if ("ACCEPT" : String) = "ACCEPT" then "ACCEPTED"
              else "REJECTED",
            reviewer_id := some "rev", decision_at := some 7 })
    ∧ (findCheckpoint sampleDbDone.checkpoints "CHKPT-X" = some sampleCpDone
      ∧ sampleCpDone.status ≠ "PENDING"
      ∧ (resume_workflow {} 7 sampleDbDone "CHKPT-X" "ACCEPT" "rev" "").2.1
          = sampleDbDone) := by
  have h3 : findCheckpoint sampleDb.checkpoints "CHKPT-X" = some sampleCp := by
    simp [sampleDb, findCheckpoint, List.find?, sampleCp]
  have h2 : findCheckpoint sampleDbDone.checkpoints "CHKPT-X"
      = some sampleCpDone := by
    simp [sampleDbDone, findCheckpoint, List.find?, sampleCpDone, sampleCp]
  have h2s : sampleCpDone.status ≠ "PENDING" := by
    simp [sampleCpDone, sampleCp]
  refine ⟨⟨h3, rfl, by decide, ?_⟩, ⟨h2, h2s, ?_⟩⟩
  · exact ((checkpoint_transition_C3 {} 7 sampleDb "CHKPT-X" "ACCEPT" "rev" ""
      sampleCp).1 h3 rfl (by decide)).1
  · exact ((checkpoint_transition_C3 {} 7 sampleDbDone "CHKPT-X" "ACCEPT"
      "rev" "" sampleCpDone).2.2 h2 h2s).1

/-- C4.  The post-match dispatcher routes to the checkpoint node exactly
when the state's match result equals the `"FAILED"` sentinel and to the
reconcile branch otherwise; being a pure function of the state, it returns
the same target for equal states. -/
theorem branch_routing_C4 (s t : InvState) :
    (should_checkpoint s = "checkpoint_hitl" ↔ s.match_result = some "FAILED")
    ∧ (s.match_result ≠ some "FAILED" → should_checkpoint s = "reconcile")
    ∧ (s = t → should_checkpoint s = should_checkpoint t) := by
  refine ⟨?_, ?_, fun h => by rw [h]⟩
  · cases hs : s.match_result with
    | none => simp [should_checkpoint, hs]
    | some v => by_cases hv : v = "FAILED" <;> simp [should_checkpoint, hs, hv]
  · intro h
    cases hs : s.match_result with
    | none => simp [should_checkpoint, hs]
    | some v =>
      rw [hs] at h
      have hv : v ≠ "FAILED" := fun hc => h (by rw [hc])
      simp [should_checkpoint, hs, hv]

theorem branch_routing_C4_wit :
    (({ match_result := some "MATCHED" } : InvState).match_result
        ≠ some "FAILED"
      ∧ should_checkpoint { match_result := some "MATCHED" } = "reconcile")
    ∧ (({ match_result := some "FAILED" } : InvState)
        = { match_result := some "FAILED" }
      ∧ should_checkpoint { match_result := some "FAILED" }
          = should_checkpoint { match_result := some "FAILED" }) := by
  have hne : ({ match_result := some "MATCHED" } : InvState).match_result
      ≠ some "FAILED" := by simp
  refine ⟨⟨hne, ?_⟩, ⟨rfl, ?_⟩⟩
  · exact (branch_routing_C4 { match_result := some "MATCHED" }
      { match_result := some "MATCHED" }).2.1 hne
  · exact (branch_routing_C4 { match_result := some "FAILED" }
      { match_result := some "FAILED" }).2.2 rfl

theorem resume_status_no_accept (fr : FreshIds) (now : Nat) (db : DB)
    (cid d r n : String) (cp : Checkpoint)
    (h : findCheckpoint db.checkpoints cid = some cp)
    (hp : cp.status = "PENDING") (hne : d ≠ "") (hna : d ≠ "ACCEPT") :
    (resume_workflow fr now db cid d r n).1.status
      = (if d = "REJECT" then "MANUAL_HANDOFF" else "COMPLETED")
    ∧ (resume_workflow fr now db cid d r n).2.2
      = ["hitl_decision", "complete"] := by
  simp only [resume_workflow, h, hp, ne_eq, not_true_eq_false, if_false]
  constructor
  · rw [runResume_no_accept_status fr now _ db d rfl hne hna]
    rfl
  · exact runResume_no_accept_trace fr now _ db d rfl hne hna

theorem resume_status_accept (fr : FreshIds) (now : Nat) (db : DB)
    (cid r n : String) (cp : Checkpoint)
    (h : findCheckpoint db.checkpoints cid = some cp)
    (hp : cp.status = "PENDING") :
    (resume_workflow fr now db cid "ACCEPT" r n).1.status = "COMPLETED"
    ∧ (resume_workflow fr now db cid "ACCEPT" r n).2.2
      = ["hitl_decision", "reconcile", "approve", "posting", "notify",
         "complete"] := by
  simp only [resume_workflow, h, hp, ne_eq, not_true_eq_false, if_false]
  constructor
  · rw [runResume_accept_status fr now _ db rfl]
    rfl
  · exact runResume_accept_trace fr now _ db rfl

/-- C5.  After a human decision the dispatcher routes to reconcile exactly
when the decision equals `"ACCEPT"` and to the terminal complete node
otherwise; resuming with `REJECT` reaches terminal status
`MANUAL_HANDOFF` having executed only the decision and complete stages
(no reconciliation stages), while resuming with `ACCEPT` runs
reconcile → approve → posting → notify → complete to terminal status
`COMPLETED` with the checkpoint marked `ACCEPTED`. -/
theorem post_decision_routing_C5 (fr fr2 : FreshIds) (now now2 : Nat)
    (db : DB) (cid r n r2 n2 : String) (cp : Checkpoint) (s : InvState) :
    (should_continue_after_hitl s = "reconcile"
      ↔ s.human_decision = some "ACCEPT")
    ∧ (s.human_decision ≠ some "ACCEPT"
      → should_continue_after_hitl s = "complete")
    ∧ (findCheckpoint db.checkpoints cid = some cp → cp.status = "PENDING" →
      (resume_workflow fr now db cid "REJECT" r n).1.status = "MANUAL_HANDOFF"
      ∧ (resume_workflow fr now db cid "REJECT" r n).2.2
          = ["hitl_decision", "complete"]
      ∧ (findCheckpoint
          (resume_workflow fr now db cid "REJECT" r n).2.1.checkpoints
          cid).map Checkpoint.status = some "REJECTED")
    ∧ (findCheckpoint db.checkpoints cid = some cp → cp.status = "PENDING" →
      (resume_workflow fr2 now2 db cid "ACCEPT" r2 n2).1.status = "COMPLETED"
      ∧ (resume_workflow fr2 now2 db cid "ACCEPT" r2 n2).2.2
          = ["hitl_decision", "reconcile", "approve", "posting", "notify",
             "complete"]
      ∧ (findCheckpoint
          (resume_workflow fr2 now2 db cid "ACCEPT" r2 n2).2.1.checkpoints
          cid).map Checkpoint.status = some "ACCEPTED") := by
  refine ⟨?_, ?_, ?_, ?_⟩
  · cases hs : s.human_decision with
    | none => simp [should_continue_after_hitl, hs]
    | some v =>
      by_cases hv : v = "ACCEPT" <;> simp [should_continue_after_hitl, hs, hv]
  · intro h
    cases hs : s.human_decision with
    | none => simp [should_continue_after_hitl, hs]
    | some v =>
      rw [hs] at h
      have hv : v ≠ "ACCEPT" := fun hc => h (by rw [hc])
      simp [should_continue_after_hitl, hs, hv]
  · intro h hp
    have hst := resume_status_no_accept fr now db cid "REJECT" r n cp h hp
      (by decide) (by decide)
    refine ⟨by simpa using hst.1, hst.2, ?_⟩
    rw [resume_success_find fr now db cid "REJECT" r n cp h hp (by decide)]
    rfl
  · intro h hp
    have hst := resume_status_accept fr2 now2 db cid r2 n2 cp h hp
    refine ⟨hst.1, hst.2, ?_⟩
    rw [resume_success_find fr2 now2 db cid "ACCEPT" r2 n2 cp h hp (by decide)]
    rfl

theorem post_decision_routing_C5_wit :
    (findCheckpoint sampleDb.checkpoints "CHKPT-X" = some sampleCp
      ∧ sampleCp.status = "PENDING"
      ∧ (resume_workflow {} 7 sampleDb "CHKPT-X" "REJECT" "rev" "").1.status
          = "MANUAL_HANDOFF"
      ∧ (resume_workflow {} 7 sampleDb "CHKPT-X" "REJECT" "rev" "").2.2
          = ["hitl_decision", "complete"])
    ∧ ((resume_workflow {} 8 sampleDb "CHKPT-X" "ACCEPT" "rev" "").1.status
          = "COMPLETED"
      ∧ (resume_workflow {} 8 sampleDb "CHKPT-X" "ACCEPT" "rev" "").2.2
          = ["hitl_decision", "reconcile", "approve", "posting", "notify",
             "complete"]) := by
  have h3 : findCheckpoint sampleDb.checkpoints "CHKPT-X" = some sampleCp := by
    simp [sampleDb, findCheckpoint, List.find?, sampleCp]
  have main := post_decision_routing_C5 {} {} 7 8 sampleDb "CHKPT-X" "rev" ""
    "rev" "" sampleCp {}
  exact ⟨⟨h3, rfl, (main.2.2.1 h3 rfl).1, (main.2.2.1 h3 rfl).2.1⟩,
    (main.2.2.2 h3 rfl).1, (main.2.2.2 h3 rfl).2.1⟩

/-- C10.  For any decision value other than the exact strings `"ACCEPT"`
and `"REJECT"` (e.g. a lowercase `"reject"`), the resumed workflow routes
to the complete stage but terminates with status `COMPLETED` rather than
`MANUAL_HANDOFF`, because `complete_node` applies `MANUAL_HANDOFF` only
when the stored decision equals `"REJECT"` exactly — even though the
decision stage set the in-flight status to `MANUAL_HANDOFF` (and marked
the checkpoint `REJECTED`). -/
theorem nonstandard_decision_C10 (fr : FreshIds) (now : Nat) (db db2 : DB)
    (cid d r n tok : String) (cp : Checkpoint) (s : InvState) :
    (findCheckpoint db.checkpoints cid = some cp → cp.status = "PENDING" →
      d ≠ "" → d ≠ "ACCEPT" → d ≠ "REJECT" →
      (resume_workflow fr now db cid d r n).1.status = "COMPLETED"
      ∧ (resume_workflow fr now db cid d r n).2.2
          = ["hitl_decision", "complete"]
      ∧ (findCheckpoint
          (resume_workflow fr now db cid d r n).2.1.checkpoints cid).map
          Checkpoint.status = some "REJECTED")
    ∧ (s.human_decision = some d → d ≠ "" → d ≠ "ACCEPT" →
      (hitl_decision_node tok s db2 now).1.workflow_status
        = some "MANUAL_HANDOFF") := by
  constructor
  · intro h hp hne hna hnr
    have hst := resume_status_no_accept fr now db cid d r n cp h hp hne hna
    refine ⟨by simpa [hnr] using hst.1, hst.2, ?_⟩
    rw [resume_success_find fr now db cid d r n cp h hp hne]
    simp [decideCheckpoint, hna]
  · intro hd hne hna
    simp [hitl_decision_node, hd, hne, hna]

theorem nonstandard_decision_C10_wit :
    (findCheckpoint sampleDb.checkpoints "CHKPT-X" = some sampleCp
      ∧ sampleCp.status = "PENDING" ∧ ("reject" : String) ≠ ""
      ∧ ("reject" : String) ≠ "ACCEPT" ∧ ("reject" : String) ≠ "REJECT"
      ∧ (resume_workflow {} 7 sampleDb "CHKPT-X" "reject" "rev" "").1.status
          = "COMPLETED"
      ∧ (findCheckpoint
          (resume_workflow {} 7 sampleDb "CHKPT-X" "reject" "rev" ""
            ).2.1.checkpoints "CHKPT-X").map Checkpoint.status
          = some "REJECTED")
    ∧ (({ human_decision := some "reject" } : InvState).human_decision
          = some "reject"
      ∧ (hitl_decision_node "tok" { human_decision := some "reject" } {} 7
          ).1.workflow_status = some "MANUAL_HANDOFF") := by
  have h3 : findCheckpoint sampleDb.checkpoints "CHKPT-X" = some sampleCp := by
    simp [sampleDb, findCheckpoint, List.find?, sampleCp]
  have main := nonstandard_decision_C10 {} 7 sampleDb {} "CHKPT-X" "reject"
    "rev" "" "tok" sampleCp { human_decision := some "reject" }
  have hpart := main.1 h3 rfl (by decide) (by decide) (by decide)
  exact ⟨⟨h3, rfl, by decide, by decide, by decide, hpart.1, hpart.2.2⟩,
    rfl, main.2 rfl (by decide) (by decide)⟩

/-- C7, counterexample to "the persisted snapshot contains the entire
current WorkflowState": the snapshot constructor is not injective — two
states that differ (here in the accumulated error list, likewise in
`current_stage`, timestamps, etc.) produce the same snapshot, so the
snapshot cannot contain the whole state. -/
theorem suspend_snapshot_C7_cex :
    mkStateBlob { workflow_id := "WF-1",
                  errors := [{ stage := "INTAKE", error := "boom",
                               timestamp := 1 }] }
      = mkStateBlob { workflow_id := "WF-1" }
    ∧ ({ workflow_id := "WF-1",
         errors := [{ stage := "INTAKE", error := "boom",
                      timestamp := 1 }] } : InvState)
      ≠ { workflow_id := "WF-1" } := by
  refine ⟨rfl, fun h => ?_⟩
  have := congrArg InvState.errors h
  simp at this

/-- C7 (amended).  On suspension the persisted checkpoint row carries a
fixed ten-field snapshot of the *current* state (workflow id, invoice
payload, vendor profile, normalized invoice, matched candidates, match
score / result / evidence, flags, backend selections — more than the
stage's own delta, but not the entire state), a fresh identifier built
from the supplied UUID fragment, a suspension reason derived from the
failed match score, and status `PENDING`; the returned update sets the
workflow status to `PAUSED` and attaches the checkpoint identifier, which
`start_workflow` surfaces to the caller when the final state is paused. -/
theorem suspend_checkpoint_C7 (s : InvState) (db : DB) (now : Nat)
    (uuid8 db_tool wfid : String) (final : InvState) :
    (checkpoint_hitl_node s db now uuid8 db_tool).2.checkpoints
      = db.checkpoints ++
        [{ checkpoint_id := "CHKPT-" ++ uuid8, workflow_id := s.workflow_id,
           invoice_id := s.invoice_payload.invoice_id,
           vendor_name := s.invoice_payload.vendor_name,
           amount := s.invoice_payload.amount,
           state_blob := mkStateBlob s,
           reason_for_hold := pausedReason (s.match_score.getD 0),
           review_url := "/human-review/" ++ ("CHKPT-" ++ uuid8),
           status := "PENDING", created_at := now }]
    ∧ (checkpoint_hitl_node s db now uuid8 db_tool).1.workflow_status
        = some "PAUSED"
    ∧ (checkpoint_hitl_node s db now uuid8 db_tool).1.hitl_checkpoint_id
        = some ("CHKPT-" ++ uuid8)
    ∧ (("CHKPT-" ++ uuid8) ∉ db.checkpoints.map Checkpoint.checkpoint_id →
        ((checkpoint_hitl_node s db now uuid8 db_tool).2.checkpoints.filter
          (fun c => c.checkpoint_id == "CHKPT-" ++ uuid8)).length = 1)
    ∧ (final.workflow_status = some "PAUSED" →
        start_result wfid final
          = { workflow_id := wfid, status := "PAUSED",
              checkpoint_id := final.hitl_checkpoint_id,
              review_url := final.review_url,
              message := "Workflow paused for human review" }) := by
  refine ⟨rfl, rfl, rfl, ?_, ?_⟩
  · intro hfresh
    have hnone : db.checkpoints.filter
        (fun c => c.checkpoint_id == "CHKPT-" ++ uuid8) = [] := by
      rw [List.filter_eq_nil_iff]
      intro c hc hbeq
      exact hfresh (List.mem_map.mpr ⟨c, hc, by simpa using hbeq⟩)
    show ((db.checkpoints ++ [_]).filter _).length = 1
    rw [List.filter_append, hnone]
    simp
  · intro h
    simp [start_result, h]

theorem suspend_checkpoint_C7_wit :
    (("CHKPT-abc" : String)
        ∉ (({} : DB)).checkpoints.map Checkpoint.checkpoint_id
      ∧ ((checkpoint_hitl_node {} {} 5 "abc" "sqlite").2.checkpoints.filter
          (fun c => c.checkpoint_id == "CHKPT-" ++ "abc")).length = 1)
    ∧ (({ workflow_status := some "PAUSED",
          hitl_checkpoint_id := some "CHKPT-abc" } : InvState).workflow_status
        = some "PAUSED"
      ∧ start_result "WF-9"
          { workflow_status := some "PAUSED",
            hitl_checkpoint_id := some "CHKPT-abc" }
        = { workflow_id := "WF-9", status := "PAUSED",
            checkpoint_id := some "CHKPT-abc", review_url := none,
            message := "Workflow paused for human review" }) := by
  have hfresh : ("CHKPT-abc" : String)
      ∉ (({} : DB)).checkpoints.map Checkpoint.checkpoint_id := by simp
  have main := suspend_checkpoint_C7 {} {} 5 "abc" "sqlite" "WF-9"
    { workflow_status := some "PAUSED",
      hitl_checkpoint_id := some "CHKPT-abc" }
  exact ⟨⟨hfresh, main.2.2.2.1 hfresh⟩, rfl, main.2.2.2.2 rfl⟩

/-! ## Theorems: merge discipline (spec-modelled) -/

theorem getKey_setKey (m : Dict) (kv : String × String) (key : String) :
    getKey (setKey m kv) key
      = if kv.1 = key then some kv.2 else getKey m key := by
  obtain ⟨k, v⟩ := kv
  induction m with
  | nil => by_cases h : k = key <;> simp [setKey, getKey, h]
  | cons hd tl ih =>
    obtain ⟨k2, v2⟩ := hd
    by_cases h1 : k2 = k
    · subst h1
      by_cases h2 : k2 = key <;> simp [setKey, getKey, h2]
    · rw [setKey, if_neg h1]
      by_cases h2 : k2 = key
      · have h3 : ¬k = key := fun hc => h1 (h2.trans hc.symm)
        simp [getKey, h2, h3]
      · simp [getKey, h2, ih]

theorem getKey_foldl_setKey (u m : Dict) (key : String) :
    getKey (u.foldl setKey m) key
      = upd (getKey m key) (lastWrite u key) := by
  induction u generalizing m with
  | nil => simp [lastWrite, upd]
  | cons kv rest ih =>
    rw [List.foldl_cons, ih, lastWrite, getKey_setKey]
    cases hlw : lastWrite rest key <;> by_cases h : kv.1 = key <;>
      simp [upd, h, hlw]

/-- C6.  The (spec-modelled) merge of a PartialUpdate into WorkflowState
overwrites scalar fields, appends list-typed fields, and merges
mapping-typed fields key-by-key with later writes to a key overriding
earlier ones; merging the same PartialUpdate twice in sequence leaves the
scalar and mapping fields as after one merge, while each list field grows
by one appended copy per merge.  (`updated_at` is refreshed to the merge
time on every merge, per §4.2.) -/
theorem merge_discipline_C6 (now now2 : Nat) (s : MergeState)
    (u : MergeDelta) (key : String) :
    ((mergeUpdate now s u).workflow_id = u.workflow_id.getD s.workflow_id
      ∧ (mergeUpdate now s u).current_stage
          = u.current_stage.getD s.current_stage
      ∧ (mergeUpdate now s u).match_score = u.match_score.getD s.match_score
      ∧ (mergeUpdate now s u).updated_at = now)
    ∧ ((mergeUpdate now s u).errors = s.errors ++ u.errors
      ∧ (mergeUpdate now s u).notified_parties
          = s.notified_parties ++ u.notified_parties)
    ∧ getKey (mergeUpdate now s u).bigtool_selections key
        = upd (getKey s.bigtool_selections key)
            (lastWrite u.bigtool_selections key)
    ∧ ((mergeUpdate now2 (mergeUpdate now s u) u).workflow_id
          = (mergeUpdate now s u).workflow_id
      ∧ (mergeUpdate now2 (mergeUpdate now s u) u).current_stage
          = (mergeUpdate now s u).current_stage
      ∧ (mergeUpdate now2 (mergeUpdate now s u) u).match_score
          = (mergeUpdate now s u).match_score
      ∧ getKey (mergeUpdate now2 (mergeUpdate now s u) u).bigtool_selections
          key = getKey (mergeUpdate now s u).bigtool_selections key
      ∧ (mergeUpdate now2 (mergeUpdate now s u) u).errors
          = s.errors ++ u.errors ++ u.errors
      ∧ (mergeUpdate now2 (mergeUpdate now s u) u).notified_parties
          = s.notified_parties ++ u.notified_parties ++ u.notified_parties) := by
  refine ⟨⟨rfl, rfl, rfl, rfl⟩, ⟨rfl, rfl⟩, getKey_foldl_setKey _ _ _,
    ?_, ?_, ?_, ?_, rfl, rfl⟩
  · cases h : u.workflow_id <;> simp [mergeUpdate, h]
  · cases h : u.current_stage <;> simp [mergeUpdate, h]
  · cases h : u.match_score <;> simp [mergeUpdate, h]
  · rw [show (mergeUpdate now2 (mergeUpdate now s u) u).bigtool_selections
        = u.bigtool_selections.foldl setKey
            (mergeUpdate now s u).bigtool_selections from rfl,
      getKey_foldl_setKey,
      show (mergeUpdate now s u).bigtool_selections
        = u.bigtool_selections.foldl setKey s.bigtool_selections from rfl,
      getKey_foldl_setKey]
    cases hlw : lastWrite u.bigtool_selections key <;> simp [upd, hlw]

/-! ## Theorems: executor budget (spec-modelled) -/

theorem execGo_bound {σ : Type} (g : ExecGraph σ)
    (hterm : ∀ nm : String, ∀ n : ExecNode σ, (nm, n) ∈ g.nodes →
      ∀ fin : σ → String, n.edge = ExecEdge.terminal fin → ∀ t : σ,
      fin t ∈ (["COMPLETED", "FAILED", "MANUAL_HANDOFF"] : List String)) :
    ∀ fuel : Nat, ∀ cur : String, ∀ s : σ,
      (execGo g fuel cur s).1
          ∈ (["PAUSED", "COMPLETED", "FAILED", "MANUAL_HANDOFF"] : List String)
      ∧ (execGo g fuel cur s).2 ≤ fuel := by
  intro fuel
  induction fuel with
  | zero => intro cur s; simp [execGo]
  | succ k ih =>
    intro cur s
    cases hfind : g.nodes.find? (fun p => p.1 == cur) with
    | none => simp [execGo, hfind]
    | some p =>
      have hmem : p ∈ g.nodes := List.mem_of_find?_eq_some hfind
      by_cases hs : p.2.suspend
      · simp [execGo, hfind, hs]
      · cases hedge : p.2.edge with
        | terminal fin =>
          have hstat := hterm p.1 p.2 hmem fin hedge (p.2.stage s)
          simp only [execGo, hfind, hs, hedge, if_false, Bool.false_eq_true]
          exact ⟨List.mem_cons_of_mem _ hstat, by omega⟩
        | next sel =>
          have hrec := ih (sel (p.2.stage s)) (p.2.stage s)
          simp only [execGo, hfind, hs, hedge, if_false, Bool.false_eq_true]
          exact ⟨hrec.1, by omega⟩

/-- C8.  The (spec-modelled) Executor runs with a hard iteration cap equal
to the graph's node count: every run performs at most that many stage
invocations and halts with a status among
{PAUSED, COMPLETED, FAILED, MANUAL_HANDOFF}, provided terminal nodes
report statuses from that set — even on a malformed (cyclic) graph, where
the exhausted budget yields `FAILED`. -/
theorem executor_budget_C8 {σ : Type} (g : ExecGraph σ) (s : σ)
    (hterm : ∀ nm : String, ∀ n : ExecNode σ, (nm, n) ∈ g.nodes →
      ∀ fin : σ → String, n.edge = ExecEdge.terminal fin → ∀ t : σ,
      fin t ∈ (["COMPLETED", "FAILED", "MANUAL_HANDOFF"] : List String)) :
    (executorRun g s).1
        ∈ (["PAUSED", "COMPLETED", "FAILED", "MANUAL_HANDOFF"] : List String)
    ∧ (executorRun g s).2 ≤ g.nodes.length :=
  execGo_bound g hterm g.nodes.length g.entry s

theorem executor_budget_C8_wit :
    (∀ nm : String, ∀ n : ExecNode Unit, (nm, n) ∈ cycleGraph.nodes →
      ∀ fin : Unit → String, n.edge = ExecEdge.terminal fin → ∀ t : Unit,
      fin t ∈ (["COMPLETED", "FAILED", "MANUAL_HANDOFF"] : List String))
    ∧ (executorRun cycleGraph ()).1
        ∈ (["PAUSED", "COMPLETED", "FAILED", "MANUAL_HANDOFF"] : List String)
    ∧ (executorRun cycleGraph ()).2 ≤ cycleGraph.nodes.length := by
  have hterm : ∀ nm : String, ∀ n : ExecNode Unit, (nm, n) ∈ cycleGraph.nodes →
      ∀ fin : Unit → String, n.edge = ExecEdge.terminal fin → ∀ t : Unit,
      fin t ∈ (["COMPLETED", "FAILED", "MANUAL_HANDOFF"] : List String) := by
    intro nm n hmem fin heq t
    have hn : n = { stage := id, suspend := false,
                    edge := ExecEdge.next (fun _ => "a") } := by
      have := List.mem_singleton.mp hmem
      exact congrArg Prod.snd this
    rw [hn] at heq
    exact ExecEdge.noConfusion heq
  exact ⟨hterm, (executor_budget_C8 cycleGraph () hterm).1,
    (executor_budget_C8 cycleGraph () hterm).2⟩

end InvoiceAgent
